import Mathlib

/-!
Shallow embedding of the aggregation layer of the Citi Bike dashboard
(`src/st_dashboard.py`, `src/st_dashboard_Part_2.py`).

Trip rows carry the three columns the code reads (`started_at`,
`start_station_name`, `member_casual`); weather rows carry `date`,
`bike_rides_daily`, `avgTemp`.  A column value that pandas would hold as
NaT/NaN (an unparsable timestamp, a missing station name, a missing
numeric) is `Option.none`.  Timestamps are reduced to the two fields the
code extracts (`dt.month`, `dt.hour`); dates and the numeric weather
columns are integers (only presence, equality and order of these values
matter to the dashboard logic).

The pandas pipelines are translated operation by operation:
`dropna` is a `filter` on field presence, `groupby(k).size()` is the
sorted list of distinct keys paired with their occurrence counts
(pandas sorts group keys ascending), `sort_values` is `mergeSort`,
`head(n)` is `take n`, `.isin(sel)` is list membership, and
`Series.idxmax` is the first index attaining the maximal value
(`firstMax`), returning `none` on an empty series (where pandas raises).

The Streamlit pages mutate pandas frames (adding `month`, `season`,
`hour` columns) only on copies of the two cached base tables; this is
modelled by an explicit heap of frames (`List TripFrame`,
`List WeatherFrame`) with allocation (`copy()`, boolean indexing) and
in-place writes (column assignment), so that the frame-preservation
claim is a real statement about where writes land.
-/

namespace Citibike

/-- Python value as seen by `get_season`'s `m in [12, 1, 2]` membership
tests: an int, a string, or the float NaN that `dt.month` yields on NaT.
Equality between different constructors is `false`, as in Python. -/
inductive PyVal where
  | int : Int → PyVal
  | str : String → PyVal
  | nan : PyVal
deriving DecidableEq, Repr

/-- Parsed timestamp, reduced to the fields the dashboard extracts
(`dt.month` and `dt.hour`). -/
structure Ts where
  month : Int
  hour : Nat
deriving DecidableEq, Repr

/-- Row of the trip CSV after `pd.to_datetime(..., errors="coerce")`:
`started_at` is `none` when the timestamp was unparsable (NaT), and
`start_station_name` is `none` when the CSV cell was null. -/
structure RawTripRow where
  started_at : Option Ts
  start_station_name : Option String
  member_casual : String
deriving DecidableEq, Repr

/-- Row of the merged daily CSV: `none` marks a null cell (NaT date or
NaN numeric). -/
structure RawWeatherRow where
  date : Option Int
  bike_rides_daily : Option Int
  avgTemp : Option Int
deriving DecidableEq, Repr

/-- `load_bike_data` (st_dashboard_Part_2.py, lines 29-34): parse
`started_at` with coercion, then `dropna(subset=["started_at",
"start_station_name"])`. -/
def load_bike_data (rows : List RawTripRow) : List RawTripRow :=
  rows.filter (fun r => r.started_at.isSome && r.start_station_name.isSome)

/-- `load_daily_weather_data` (st_dashboard_Part_2.py, lines 38-43):
parse `date`, then `dropna(subset=["date", "bike_rides_daily",
"avgTemp"])`. -/
def load_daily_weather_data (rows : List RawWeatherRow) : List RawWeatherRow :=
  rows.filter (fun r => r.date.isSome && r.bike_rides_daily.isSome && r.avgTemp.isSome)

/-- `get_season` (st_dashboard_Part_2.py, lines 122-130): chained `in`
membership tests with a final `else` branch. -/
def get_season (m : PyVal) : String :=
  if m = PyVal.int 12 ∨ m = PyVal.int 1 ∨ m = PyVal.int 2 then "Winter"
  else if m = PyVal.int 3 ∨ m = PyVal.int 4 ∨ m = PyVal.int 5 then "Spring"
  else if m = PyVal.int 6 ∨ m = PyVal.int 7 ∨ m = PyVal.int 8 then "Summer"
  else "Autumn"

/-- Value of the derived `month` column for one row
(`df1["month"] = df1["started_at"].dt.month`): the month int, or NaN
for a NaT timestamp. -/
def monthVal (r : RawTripRow) : PyVal :=
  match r.started_at with
  | some ts => PyVal.int ts.month
  | none => PyVal.nan

/-- Derived `season` column value for one row
(`df1["season"] = df1["month"].apply(get_season)`). -/
def rowSeason (r : RawTripRow) : String :=
  get_season (monthVal r)

/-- Season filter (st_dashboard_Part_2.py, line 141):
`df1 = df1[df1["season"].isin(season_filter)]`. -/
def filterBySeason (t : List RawTripRow) (sel : List String) : List RawTripRow :=
  t.filter (fun r => sel.contains (rowSeason r))

/-- Rider-type filter (st_dashboard_Part_2.py, line 229):
`df_bike[df_bike["member_casual"].isin(user_filter)]`. -/
def filterByRiderType (t : List RawTripRow) (sel : List String) : List RawTripRow :=
  t.filter (fun r => sel.contains r.member_casual)

/-- The four labels `get_season` can produce, in the sorted order the
multiselect widget displays them. -/
def allSeasons : List String :=
  ["Autumn", "Spring", "Summer", "Winter"]

/-- Station column after `dropna(subset=["start_station_name"])`: the
present station names, in row order. -/
def stations (t : List RawTripRow) : List String :=
  t.filterMap (fun r => r.start_station_name)

/-- Occurrence count of one group key (`groupby(...).size()` for one
group). -/
def countKey (l : List String) (k : String) : Nat :=
  (l.filter (fun x => x = k)).length

/-- `groupby("start_station_name").size().reset_index(name="trips")`:
distinct keys in ascending order (pandas sorts group keys), each paired
with its count. -/
def groupCounts (keys : List String) : List (String × Nat) :=
  (List.insertionSort (fun a b : String => a ≤ b) keys.dedup).map
    (fun k => (k, countKey keys k))

/-- `sort_values("trips", ascending=False)` on the (station, trips)
rows. -/
def sortByCountDesc (l : List (String × Nat)) : List (String × Nat) :=
  List.insertionSort (fun a b : String × Nat => b.2 ≤ a.2) l

instance : IsTotal (String × Nat) (fun a b : String × Nat => b.2 ≤ a.2) :=
  ⟨fun a b => le_total b.2 a.2⟩

instance : IsTrans (String × Nat) (fun a b : String × Nat => b.2 ≤ a.2) :=
  ⟨fun _ _ _ hab hbc => le_trans hbc hab⟩

/-- The ranking pipeline of both dashboards
(st_dashboard_Part_2.py, lines 144-151; st_dashboard.py, lines 35-41):
drop null station names, group by station, count, sort descending by
count, take the first `n` rows. -/
def topN (t : List RawTripRow) (n : Nat) : List (String × Nat) :=
  (sortByCountDesc (groupCounts (stations t))).take n

/-- `top20` as in the source: the ranking pipeline with `head(20)`. -/
def top20 (t : List RawTripRow) : List (String × Nat) :=
  topN t 20

/-- Distinct station names of a trip table. -/
def distinctStations (t : List RawTripRow) : List String :=
  (stations t).dedup

/-- `top_station` (st_dashboard_Part_2.py, lines 275-281):
`...groupby("start_station_name").size().sort_values(ascending=False).index[0]`.
The positional `index[0]` on an empty series raises `IndexError`; the
raising case is `none`. -/
def top_station (t : List RawTripRow) : Option String :=
  ((sortByCountDesc (groupCounts (stations t))).map (fun p => p.1)).head?

/-- Hour column `df2["hour"] = df2["started_at"].dt.hour`, restricted to
the rows whose timestamp is present (a NaT hour is NaN and is dropped by
the subsequent `groupby("hour")`). -/
def hoursOf (t : List RawTripRow) : List Nat :=
  t.filterMap (fun r => r.started_at.map (fun ts => ts.hour))

/-- Occurrence count of one hour value. -/
def countHour (l : List Nat) (k : Nat) : Nat :=
  (l.filter (fun x => x = k)).length

/-- `groupby("hour").size().reset_index(name="trips").sort_values("hour")`
(st_dashboard_Part_2.py, lines 235-240): distinct hours ascending, each
with its trip count. -/
def hourly (hs : List Nat) : List (Nat × Nat) :=
  (List.insertionSort (fun a b : Nat => a ≤ b) hs.dedup).map
    (fun h => (h, countHour hs h))

/-- Scan underlying `Series.idxmax`: keep the first element whose count
is not strictly exceeded later. -/
def firstMax (best : Nat × Nat) : List (Nat × Nat) → Nat × Nat
  | [] => best
  | y :: ys => if best.2 < y.2 then firstMax y ys else firstMax best ys

/-- `peak_row = hourly.loc[hourly["trips"].idxmax()]`
(st_dashboard_Part_2.py, line 243): the first row attaining the maximal
count; `idxmax` on an empty series raises `ValueError`, modelled as
`none`. -/
def peak_row : List (Nat × Nat) → Option (Nat × Nat)
  | [] => none
  | x :: xs => some (firstMax x xs)

/-- Projection of one weather row to the plotted (date, rides, temp)
triple; `none` when any of the three cells is null. -/
def projWeather (r : RawWeatherRow) : Option (Int × Int × Int) :=
  match r.date, r.bike_rides_daily, r.avgTemp with
  | some d, some b, some temp => some (d, b, temp)
  | _, _, _ => none

/-- The daily series the weather page plots
(st_dashboard_Part_2.py, lines 38-45 and 63-89): the loaded weather rows
projected to (date, trip count, average temperature), in source row
order — the code never sorts by date. -/
def alignDailySeries (rows : List RawWeatherRow) : List (Int × Int × Int) :=
  (load_daily_weather_data rows).filterMap projWeather

/-- Ascending-by-date predicate on a daily series (the ordering the spec
asserts for `alignDailySeries`). -/
def sortedByDate (l : List (Int × Int × Int)) : Prop :=
  List.Pairwise (fun a b => a.1 ≤ b.1) l

instance (l : List (Int × Int × Int)) : Decidable (sortedByDate l) := by
  unfold sortedByDate
  exact List.instDecidablePairwise l

/-! Heap model of pandas frames.  A trip frame is the loaded base
columns plus the three derived columns a page may assign
(`month`, `season`, `hour`); a column is `none` while absent.  The heap
is a list of frames; `pd.DataFrame.copy()` and boolean indexing
allocate a fresh slot at the end, and a column assignment
`df[col] = ...` writes the slot of the frame it is applied to. -/

/-- Pandas trip frame: base rows plus the optionally-present derived
columns. -/
structure TripFrame where
  rows : List RawTripRow
  monthCol : Option (List PyVal)
  seasonCol : Option (List String)
  hourCol : Option (List (Option Nat))
deriving DecidableEq, Repr

/-- Freshly loaded trip frame: no derived columns yet. -/
def baseTripFrame (rows : List RawTripRow) : TripFrame :=
  ⟨rows, none, none, none⟩

/-- Pandas weather frame (the weather page derives no new columns). -/
structure WeatherFrame where
  rows : List RawWeatherRow
deriving DecidableEq, Repr

/-- Allocate a new trip frame (a `copy()` or the result of boolean
indexing): append it to the heap and return its slot index. -/
def allocT (h : List TripFrame) (f : TripFrame) : List TripFrame × Nat :=
  (h ++ [f], h.length)

/-- In-place write of a trip-frame slot (a column assignment on the
frame stored there). -/
def writeT (h : List TripFrame) (i : Nat) (f : TripFrame) : List TripFrame :=
  h.set i f

/-- Allocate a new weather frame. -/
def allocW (h : List WeatherFrame) (f : WeatherFrame) : List WeatherFrame × Nat :=
  (h ++ [f], h.length)

/-- In-place write of a weather-frame slot. -/
def writeW (h : List WeatherFrame) (i : Nat) (f : WeatherFrame) : List WeatherFrame :=
  h.set i f

/-- `df1["month"] = df1["started_at"].dt.month`. -/
def addMonthCol (f : TripFrame) : TripFrame :=
  { f with monthCol := some (f.rows.map monthVal) }

/-- `df1["season"] = df1["month"].apply(get_season)`. -/
def addSeasonCol (f : TripFrame) : TripFrame :=
  { f with seasonCol := some ((f.monthCol.getD []).map get_season) }

/-- `df2["hour"] = df2["started_at"].dt.hour` (NaT gives a missing
entry). -/
def addHourCol (f : TripFrame) : TripFrame :=
  { f with hourCol := some (f.rows.map (fun r => r.started_at.map (fun ts => ts.hour))) }

/-- Boolean-mask selection on one column: keep the entries whose mask
bit is `true`. -/
def maskList (l : List α) (m : List Bool) : List α :=
  (l.zip m).filterMap (fun p => if p.2 then some p.1 else none)

/-- Boolean indexing `df[mask]`: a new frame keeping the selected
entries of every present column. -/
def filterFrame (f : TripFrame) (m : List Bool) : TripFrame :=
  ⟨maskList f.rows m, f.monthCol.map (fun c => maskList c m),
    f.seasonCol.map (fun c => maskList c m), f.hourCol.map (fun c => maskList c m)⟩

/-- The "Most popular stations" page (st_dashboard_Part_2.py, lines
112-151) over the heap: copy the cached bike frame, derive `month` and
`season` on the copy when the season column is absent, rebind to the
season-filtered frame, and compute the top-20 ranking from it.  Returns
the final heap and the ranking. -/
def popularStationsView (h : List TripFrame) (bikeId : Nat) (seasonSel : List String) :
    List TripFrame × List (String × Nat) :=
  match h[bikeId]? with
  | none => (h, [])
  | some dfBike =>
    let p1 := allocT h dfBike
    let df1Id := p1.2
    let h1 := writeT p1.1 df1Id dfBike
    let df1a := if dfBike.seasonCol.isNone then addMonthCol dfBike else dfBike
    let h2 := writeT h1 df1Id df1a
    let df1b := if dfBike.seasonCol.isNone then addSeasonCol df1a else df1a
    let h3 := writeT h2 df1Id df1b
    let mask := (df1b.seasonCol.getD []).map (fun s => seasonSel.contains s)
    let df1c := filterFrame df1b mask
    let p2 := allocT h3 df1c
    (p2.1, topN df1c.rows 20)

/-- The "Peak hours and demand" page (st_dashboard_Part_2.py, lines
224-245) over the heap: allocate the rider-type-filtered copy of the
cached bike frame, write its `hour` column, and compute the hourly
table and the peak row from it. -/
def peakHoursView (h : List TripFrame) (bikeId : Nat) (userSel : List String) :
    List TripFrame × Option (Nat × Nat) :=
  match h[bikeId]? with
  | none => (h, none)
  | some dfBike =>
    let mask := dfBike.rows.map (fun r => userSel.contains r.member_casual)
    let p1 := allocT h (filterFrame dfBike mask)
    let df2Id := p1.2
    let df2 := addHourCol (filterFrame dfBike mask)
    let h1 := writeT p1.1 df2Id df2
    let hrs := (df2.hourCol.getD []).filterMap id
    (h1, peak_row (hourly hrs))

/-- The "Weather component and bike usage" page (st_dashboard_Part_2.py,
lines 63-89) over the heap: copy the cached weather frame, re-parse its
(already parsed) `date` column in place, and read off the two plotted
series. -/
def weatherView (h : List WeatherFrame) (wId : Nat) :
    List WeatherFrame × (List (Option Int × Option Int) × List (Option Int × Option Int)) :=
  match h[wId]? with
  | none => (h, ([], []))
  | some dfW =>
    let p1 := allocW h dfW
    let h1 := writeW p1.1 p1.2 dfW
    (h1, (dfW.rows.map (fun r => (r.date, r.bike_rides_daily)),
          dfW.rows.map (fun r => (r.date, r.avgTemp))))

/-! Concrete tables, used to evaluate the development on the scenarios
of the specification (stations A, B, A with hours 8, 8, 9; a weather
table whose two dated rows arrive out of date order; a single valid
weather row). -/

/-- Trip row: January, hour 8, station A, member. -/
def fixTripA : RawTripRow := ⟨some ⟨1, 8⟩, some "A", "member"⟩

/-- Trip row: July, hour 8, station B, casual. -/
def fixTripB : RawTripRow := ⟨some ⟨7, 8⟩, some "B", "casual"⟩

/-- Trip row: April, hour 9, station A, member. -/
def fixTripA2 : RawTripRow := ⟨some ⟨4, 9⟩, some "A", "member"⟩

/-- Three-row trip table of the specification's scenario. -/
def fixTrips : List RawTripRow := [fixTripA, fixTripB, fixTripA2]

/-- Weather table whose rows are valid but not in ascending date
order. -/
def fixWeatherRows : List RawWeatherRow :=
  [⟨some 2, some 150, some 6⟩, ⟨some 1, some 100, some 5⟩]

/-- Weather table with a single fully-populated row. -/
def fixWeatherValid : List RawWeatherRow := [⟨some 1, some 100, some 5⟩]

/-- Heap holding the cached bike table in slot 0. -/
def fixHeap : List TripFrame := [baseTripFrame fixTrips]

/-- Heap holding the cached weather table in slot 0. -/
def fixWHeap : List WeatherFrame := [⟨fixWeatherValid⟩]

/-! Helper lemmas. -/

/-- The final `else` makes `get_season` produce one of exactly four
labels on every input. -/
theorem getSeason_cases (m : PyVal) :
    get_season m = "Winter" ∨ get_season m = "Spring" ∨
      get_season m = "Summer" ∨ get_season m = "Autumn" := by
  unfold get_season
  split_ifs <;> simp

/-- The descending count sort is sorted non-increasingly in the counts. -/
theorem sortByCountDesc_sorted (l : List (String × Nat)) :
    List.Pairwise (fun a b : String × Nat => b.2 ≤ a.2) (sortByCountDesc l) :=
  List.sorted_insertionSort (fun a b : String × Nat => b.2 ≤ a.2) l

/-- Length of the sorted station-count table: one row per distinct
station. -/
theorem sortByCountDesc_groupCounts_length (t : List RawTripRow) :
    (sortByCountDesc (groupCounts (stations t))).length = (distinctStations t).length := by
  simp [sortByCountDesc, groupCounts, distinctStations, List.length_insertionSort]

/-- Every distinct station appears in the grouped count table, paired
with its count. -/
theorem mem_groupCounts_of_mem_dedup {keys : List String} {s : String} (hs : s ∈ keys.dedup) :
    (s, countKey keys s) ∈ groupCounts keys := by
  unfold groupCounts
  exact List.mem_map.mpr ⟨s, (List.mem_insertionSort _).mpr hs, rfl⟩

/-- The hourly table is strictly ascending in its hour column: grouping
deduplicates the hours and pandas sorts the keys. -/
theorem hourly_sorted_strict (hs : List Nat) :
    List.Pairwise (fun p q : Nat × Nat => p.1 < q.1) (hourly hs) := by
  rw [hourly, List.pairwise_map]
  have hperm := List.perm_insertionSort (fun a b : Nat => a ≤ b) hs.dedup
  have hnd : (List.insertionSort (fun a b : Nat => a ≤ b) hs.dedup).Nodup :=
    hperm.nodup_iff.mpr (List.nodup_dedup hs)
  have hsorted := List.sorted_insertionSort (fun a b : Nat => a ≤ b) hs.dedup
  exact (hsorted.and hnd).imp (fun hab => lt_of_le_of_ne hab.1 hab.2)

/-- A nonempty hour column yields a nonempty hourly table. -/
theorem hourly_ne_nil {hs : List Nat} (h : hs ≠ []) : hourly hs ≠ [] := by
  intro hc
  apply h
  have hlen : (hourly hs).length = hs.dedup.length := by
    simp [hourly, List.length_insertionSort]
  rw [hc] at hlen
  exact (List.dedup_eq_nil hs).mp (List.length_eq_zero.mp hlen.symm)

/-- The running best of the `idxmax` scan is the seed or a scanned
element. -/
theorem firstMax_mem (b : Nat × Nat) (l : List (Nat × Nat)) :
    firstMax b l = b ∨ firstMax b l ∈ l := by
  induction l generalizing b with
  | nil => exact Or.inl rfl
  | cons y ys ih =>
    simp only [firstMax]
    by_cases hby : b.2 < y.2
    · rw [if_pos hby]
      rcases ih y with h | h
      · exact Or.inr (by simp [h])
      · exact Or.inr (by simp [h])
    · rw [if_neg hby]
      rcases ih b with h | h
      · exact Or.inl h
      · exact Or.inr (by simp [h])

/-- The `idxmax` scan result dominates the seed and every scanned
element in the count component. -/
theorem firstMax_ge (b : Nat × Nat) (l : List (Nat × Nat)) :
    ∀ q ∈ b :: l, q.2 ≤ (firstMax b l).2 := by
  induction l generalizing b with
  | nil =>
    intro q hq
    simp only [List.mem_singleton] at hq
    subst hq
    exact le_refl _
  | cons y ys ih =>
    intro q hq
    simp only [List.mem_cons] at hq
    simp only [firstMax]
    by_cases hby : b.2 < y.2
    · rw [if_pos hby]
      rcases hq with hq | hq | hq
      · rw [hq]
        exact le_trans (le_of_lt hby) (ih y y (by simp))
      · rw [hq]
        exact ih y y (by simp)
      · exact ih y q (by simp [hq])
    · rw [if_neg hby]
      rcases hq with hq | hq | hq
      · rw [hq]
        exact ih b b (by simp)
      · rw [hq]
        exact le_trans (Nat.le_of_not_lt hby) (ih b b (by simp))
      · exact ih b q (by simp [hq])

/-- When no scanned element strictly beats the seed, the scan keeps the
seed (so `idxmax` reports the first maximal position). -/
theorem firstMax_eq_self (b : Nat × Nat) (l : List (Nat × Nat))
    (h : ∀ z ∈ l, z.2 ≤ b.2) : firstMax b l = b := by
  induction l with
  | nil => rfl
  | cons y ys ih =>
    have hy : ¬ b.2 < y.2 := Nat.not_lt.mpr (h y (by simp))
    simp only [firstMax, if_neg hy]
    exact ih (fun z hz => h z (by simp [hz]))

/-- On a list strictly ascending in the first component, the `idxmax`
scan result has the least first component among the maximal entries. -/
theorem firstMax_min_fst (b : Nat × Nat) (l : List (Nat × Nat))
    (hs : List.Pairwise (fun p q : Nat × Nat => p.1 < q.1) (b :: l)) :
    ∀ q ∈ b :: l, q.2 = (firstMax b l).2 → (firstMax b l).1 ≤ q.1 := by
  induction l generalizing b with
  | nil =>
    intro q hq _
    simp only [List.mem_singleton] at hq
    subst hq
    exact le_refl _
  | cons y ys ih =>
    intro q hq hq2
    by_cases hby : b.2 < y.2
    · simp only [firstMax, if_pos hby] at hq2 ⊢
      have hs' : List.Pairwise (fun p q : Nat × Nat => p.1 < q.1) (y :: ys) :=
        (List.pairwise_cons.mp hs).2
      simp only [List.mem_cons] at hq
      rcases hq with hq | hq
      · exfalso
        rw [hq] at hq2
        have h1 : y.2 ≤ (firstMax y ys).2 := firstMax_ge y ys y (by simp)
        omega
      · exact ih y hs' q (List.mem_cons.mpr hq) hq2
    · simp only [firstMax, if_neg hby] at hq2 ⊢
      have hsb : List.Pairwise (fun p q : Nat × Nat => p.1 < q.1) (b :: ys) :=
        hs.sublist (List.Sublist.cons₂ b (List.sublist_cons_self y ys))
      simp only [List.mem_cons] at hq
      rcases hq with hq | hq | hq
      · rw [hq] at hq2 ⊢
        by_cases hall : ∀ z ∈ ys, z.2 ≤ b.2
        · rw [firstMax_eq_self b ys hall]
        · exfalso
          push_neg at hall
          obtain ⟨z, hz, hz2⟩ := hall
          have h1 : z.2 ≤ (firstMax b ys).2 := firstMax_ge b ys z (by simp [hz])
          omega
      · rw [hq] at hq2 ⊢
        by_cases hall : ∀ z ∈ ys, z.2 ≤ b.2
        · rw [firstMax_eq_self b ys hall]
          have hblt : b.1 < y.1 := (List.pairwise_cons.mp hs).1 y (by simp)
          exact le_of_lt hblt
        · exfalso
          push_neg at hall
          obtain ⟨z, hz, hz2⟩ := hall
          have h1 : z.2 ≤ (firstMax b ys).2 := firstMax_ge b ys z (by simp [hz])
          have h2 : y.2 ≤ b.2 := Nat.le_of_not_lt hby
          omega
      · exact ih b hsb q (List.mem_cons.mpr (Or.inr hq)) hq2

/-- The plotted daily series is the projection of exactly the fully
populated source rows, in source order. -/
theorem alignDailySeries_eq_filterMap (rows : List RawWeatherRow) :
    alignDailySeries rows = rows.filterMap projWeather := by
  induction rows with
  | nil => rfl
  | cons r rs ih =>
    rcases r with ⟨d, b, tp⟩
    simp only [alignDailySeries, load_daily_weather_data] at ih ⊢
    rcases d with _ | d <;> rcases b with _ | b <;> rcases tp with _ | tp <;>
      simp [List.filter_cons, List.filterMap_cons, projWeather, ih]

/-- The date column of the plotted series is a subsequence of the
source's date column. -/
theorem alignDailySeries_dates_sublist (rows : List RawWeatherRow) :
    ((alignDailySeries rows).map (fun p => p.1)).Sublist
      (rows.filterMap (fun r => r.date)) := by
  rw [alignDailySeries_eq_filterMap]
  induction rows with
  | nil => simp
  | cons r rs ih =>
    rcases r with ⟨d, b, tp⟩
    rcases d with _ | d <;> rcases b with _ | b <;> rcases tp with _ | tp <;>
      simp only [List.filterMap_cons, projWeather] <;>
      first
        | exact ih
        | exact ih.cons d
        | exact List.Sublist.cons₂ d ih

/-- Frame-heap arithmetic: a write to a freshly allocated slot leaves
every previously valid slot unchanged. -/
theorem set_fresh_preserve {α : Type} (h : List α) (a b : α) (j : Nat) (hj : j < h.length) :
    ((h ++ [a]).set h.length b)[j]? = h[j]? := by
  rw [List.getElem?_set_ne (Nat.ne_of_lt hj).symm]
  exact List.getElem?_append_left hj

/-! Claim theorems. -/

/-- C1: for every trip table and every n, the top-N station ranking has
length at most n and at most the number of distinct stations, its
entries are sorted non-increasingly by trip count, and when fewer than
n distinct stations exist every distinct station appears in it. -/
theorem topN_ranking_spec :
    ∀ (t : List RawTripRow) (n : Nat),
      (topN t n).length ≤ n ∧
      (topN t n).length ≤ (distinctStations t).length ∧
      List.Pairwise (fun a b : String × Nat => b.2 ≤ a.2) (topN t n) ∧
      ((distinctStations t).length < n →
        ∀ s ∈ distinctStations t, ∃ c, (s, c) ∈ topN t n) := by
  intro t n
  refine ⟨List.length_take_le n _, ?_, ?_, ?_⟩
  · have h1 : (topN t n).length = min n (sortByCountDesc (groupCounts (stations t))).length := by
      simp [topN, List.length_take]
    rw [h1]
    exact le_trans (min_le_right _ _) (le_of_eq (sortByCountDesc_groupCounts_length t))
  · rw [topN]
    exact List.Pairwise.sublist (List.take_sublist _ _) (sortByCountDesc_sorted _)
  · intro hlt s hs
    refine ⟨countKey (stations t) s, ?_⟩
    have hmem : (s, countKey (stations t) s) ∈ groupCounts (stations t) :=
      mem_groupCounts_of_mem_dedup (by simpa [distinctStations] using hs)
    have hmem2 : (s, countKey (stations t) s) ∈ sortByCountDesc (groupCounts (stations t)) := by
      rw [sortByCountDesc]
      exact (List.mem_insertionSort _).mpr hmem
    have hall : topN t n = sortByCountDesc (groupCounts (stations t)) := by
      rw [topN]
      apply List.take_of_length_le
      rw [sortByCountDesc_groupCounts_length t]
      exact le_of_lt hlt
    rw [hall]
    exact hmem2

/-- C1 witness: on the scenario table with stations A, B, A and n = 3,
only two distinct stations exist, so station A appears in the ranking. -/
theorem topN_ranking_spec_w : ∃ c, ("A", c) ∈ topN fixTrips 3 :=
  (topN_ranking_spec fixTrips 3).2.2.2 (by decide) "A" (by decide)

/-- C2: on a table with a nonempty hour column, the reported peak row
is an entry of the hourly table whose count is the count of its hour,
the count is maximal over all hours, and among the hours attaining the
maximal count the smallest hour is reported. -/
theorem peak_row_is_min_argmax :
    ∀ t : List RawTripRow, hoursOf t ≠ [] →
      ∃ h c, peak_row (hourly (hoursOf t)) = some (h, c) ∧
        (h, c) ∈ hourly (hoursOf t) ∧
        c = countHour (hoursOf t) h ∧
        (∀ p ∈ hourly (hoursOf t), p.2 ≤ c) ∧
        (∀ p ∈ hourly (hoursOf t), p.2 = c → h ≤ p.1) := by
  intro t hne
  obtain ⟨x, xs, hx⟩ : ∃ x xs, hourly (hoursOf t) = x :: xs := by
    cases hl : hourly (hoursOf t) with
    | nil => exact absurd hl (hourly_ne_nil hne)
    | cons a l => exact ⟨a, l, rfl⟩
  have hmem : firstMax x xs ∈ hourly (hoursOf t) := by
    rw [hx]
    rcases firstMax_mem x xs with h | h
    · rw [h]
      exact List.mem_cons_self x xs
    · exact List.mem_cons_of_mem x h
  have hcount : (firstMax x xs).2 = countHour (hoursOf t) (firstMax x xs).1 := by
    have hm := hmem
    rw [hourly] at hm
    obtain ⟨k, hk, hkeq⟩ := List.mem_map.mp hm
    rw [← hkeq]
  refine ⟨(firstMax x xs).1, (firstMax x xs).2, ?_, ?_, hcount, ?_, ?_⟩
  · rw [hx]
    simp [peak_row]
  · simpa using hmem
  · intro p hp
    rw [hx] at hp
    exact firstMax_ge x xs p hp
  · intro p hp hpc
    rw [hx] at hp
    exact firstMax_min_fst x xs (hx ▸ hourly_sorted_strict (hoursOf t)) p hp hpc

/-- C2 witness: the scenario table has hours 8, 8, 9, whose hourly
distribution is nonempty; the theorem applies and yields its peak. -/
theorem peak_row_is_min_argmax_w :
    ∃ h c, peak_row (hourly (hoursOf fixTrips)) = some (h, c) ∧
      (h, c) ∈ hourly (hoursOf fixTrips) ∧
      c = countHour (hoursOf fixTrips) h ∧
      (∀ p ∈ hourly (hoursOf fixTrips), p.2 ≤ c) ∧
      (∀ p ∈ hourly (hoursOf fixTrips), p.2 = c → h ≤ p.1) :=
  peak_row_is_min_argmax fixTrips (by decide)

/-- C3 (evaluation at the failing input): on the empty trip table the
total count is 0, but the top-station lookup `.index[0]` has no row to
index — the head of the ranking is `none`, the case where the code
raises `IndexError` instead of returning an absent value. -/
theorem summary_on_empty_table_eval :
    (List.length ([] : List RawTripRow) = 0) ∧
      top_station ([] : List RawTripRow) = none :=
  ⟨rfl, rfl⟩

/-- C4 counterexample: on a weather table whose two valid rows carry
dates 2 then 1, the plotted series keeps the source order and is not
sorted ascending by date, contradicting the claim as stated. -/
theorem alignDailySeries_unsorted_cex :
    ¬ sortedByDate (alignDailySeries fixWeatherRows) := by decide

/-- C4 (amended): alignDailySeries returns the valid rows in source
order: its date sequence is a subsequence of the source date column (so
no date absent from the source appears and no row is synthesized),
every output entry is the projection of a source row, and every fully
populated source row contributes its projection to the output. -/
theorem alignDailySeries_source_order :
    ∀ rows : List RawWeatherRow,
      ((alignDailySeries rows).map (fun p => p.1)).Sublist
        (rows.filterMap (fun r => r.date)) ∧
      (∀ p ∈ alignDailySeries rows, ∃ r ∈ rows, r.date = some p.1 ∧
        r.bike_rides_daily = some p.2.1 ∧ r.avgTemp = some p.2.2) ∧
      (∀ r ∈ rows, ∀ q, projWeather r = some q → q ∈ alignDailySeries rows) := by
  intro rows
  refine ⟨alignDailySeries_dates_sublist rows, ?_, ?_⟩
  · intro p hp
    rw [alignDailySeries_eq_filterMap] at hp
    obtain ⟨r, hr, hpr⟩ := List.mem_filterMap.mp hp
    refine ⟨r, hr, ?_⟩
    rcases r with ⟨d, b, tp⟩
    rcases d with _ | d <;> rcases b with _ | b <;> rcases tp with _ | tp <;>
      simp_all [projWeather]
    simp [← hpr]
  · intro r hr q hq
    rw [alignDailySeries_eq_filterMap]
    exact List.mem_filterMap.mpr ⟨r, hr, hq⟩

/-- C4 witness: the single valid weather row (date 1, 100 rides,
temperature 5) appears in the output of alignDailySeries. -/
theorem alignDailySeries_source_order_w :
    ((1 : Int), (100 : Int), (5 : Int)) ∈ alignDailySeries fixWeatherValid :=
  (alignDailySeries_source_order fixWeatherValid).2.2 ⟨some 1, some 100, some 5⟩
    (by decide) ((1 : Int), (100 : Int), (5 : Int)) rfl

/-- C5: the season derivation is a pure function of the month value:
12, 1, 2 give Winter; 3, 4, 5 give Spring; 6, 7, 8 give Summer; 9, 10,
11 give Autumn; and every input is mapped to one of the four labels. -/
theorem get_season_month_mapping :
    (get_season (PyVal.int 12) = "Winter" ∧ get_season (PyVal.int 1) = "Winter" ∧
      get_season (PyVal.int 2) = "Winter") ∧
    (get_season (PyVal.int 3) = "Spring" ∧ get_season (PyVal.int 4) = "Spring" ∧
      get_season (PyVal.int 5) = "Spring") ∧
    (get_season (PyVal.int 6) = "Summer" ∧ get_season (PyVal.int 7) = "Summer" ∧
      get_season (PyVal.int 8) = "Summer") ∧
    (get_season (PyVal.int 9) = "Autumn" ∧ get_season (PyVal.int 10) = "Autumn" ∧
      get_season (PyVal.int 11) = "Autumn") ∧
    (∀ m : PyVal, get_season m = "Winter" ∨ get_season m = "Spring" ∨
      get_season m = "Summer" ∨ get_season m = "Autumn") :=
  ⟨by decide, by decide, by decide, by decide, getSeason_cases⟩

/-- C6: filtering by the empty season set keeps nothing, and filtering
by the set of all four seasons keeps every row, since every row's
derived season is one of the four labels. -/
theorem filterBySeason_empty_and_all :
    ∀ t : List RawTripRow,
      filterBySeason t [] = [] ∧ filterBySeason t allSeasons = t := by
  intro t
  constructor
  · rw [filterBySeason]
    apply List.filter_eq_nil_iff.mpr
    intro r _
    simp
  · rw [filterBySeason]
    apply List.filter_eq_self.mpr
    intro r _
    rcases getSeason_cases (monthVal r) with h | h | h | h <;>
      simp [rowSeason, allSeasons, h]

/-- C7: load keeps exactly the rows whose required fields are all
present (parsable start timestamp and present station name for trips;
present date, ride count and temperature for weather), and on a table
with no invalid row it is the identity. -/
theorem load_keeps_exactly_valid_rows :
    ∀ (tr : List RawTripRow) (wr : List RawWeatherRow),
      (∀ r : RawTripRow, r ∈ load_bike_data tr ↔
        r ∈ tr ∧ r.started_at.isSome = true ∧ r.start_station_name.isSome = true) ∧
      (∀ w : RawWeatherRow, w ∈ load_daily_weather_data wr ↔
        w ∈ wr ∧ w.date.isSome = true ∧ w.bike_rides_daily.isSome = true ∧
          w.avgTemp.isSome = true) ∧
      ((∀ r ∈ tr, r.started_at.isSome = true ∧ r.start_station_name.isSome = true) →
        load_bike_data tr = tr) ∧
      ((∀ w ∈ wr, w.date.isSome = true ∧ w.bike_rides_daily.isSome = true ∧
          w.avgTemp.isSome = true) → load_daily_weather_data wr = wr) := by
  intro tr wr
  refine ⟨?_, ?_, ?_, ?_⟩
  · intro r
    rw [load_bike_data, List.mem_filter]
    simp [Bool.and_eq_true]
  · intro w
    rw [load_daily_weather_data, List.mem_filter]
    simp [Bool.and_eq_true, and_assoc]
  · intro hall
    apply List.filter_eq_self.mpr
    intro r hr
    obtain ⟨h1, h2⟩ := hall r hr
    simp [h1, h2]
  · intro hall
    apply List.filter_eq_self.mpr
    intro w hw
    obtain ⟨h1, h2, h3⟩ := hall w hw
    simp [h1, h2, h3]

/-- C7 witness: on the all-valid scenario tables, both loads drop
nothing. -/
theorem load_keeps_exactly_valid_rows_w :
    load_bike_data fixTrips = fixTrips ∧
      load_daily_weather_data fixWeatherValid = fixWeatherValid :=
  ⟨(load_keeps_exactly_valid_rows fixTrips fixWeatherValid).2.2.1 (by decide),
    (load_keeps_exactly_valid_rows fixTrips fixWeatherValid).2.2.2 (by decide)⟩

/-- C8 (evaluation at the failing input): deselecting every rider type
filters the table to zero rows, the hourly table is empty, and the peak
lookup `idxmax` has no row — the case where the code raises
`ValueError` instead of rendering a placeholder. -/
theorem peak_view_empty_filter_eval :
    filterByRiderType fixTrips [] = [] ∧
      hourly (hoursOf (filterByRiderType fixTrips [])) = [] ∧
      peak_row (hourly (hoursOf (filterByRiderType fixTrips []))) = none :=
  ⟨rfl, rfl, rfl⟩

/-- C9: running any of the three frame-mutating views (popular
stations, peak hours, weather plot) leaves every previously allocated
heap slot — in particular the memoized unfiltered bike and weather
tables — unchanged: all writes land on freshly allocated copies. -/
theorem views_preserve_cached_tables :
    (∀ (h : List TripFrame) (bikeId j : Nat) (sel : List String), j < h.length →
      ((popularStationsView h bikeId sel).1)[j]? = h[j]?) ∧
    (∀ (h : List TripFrame) (bikeId j : Nat) (sel : List String), j < h.length →
      ((peakHoursView h bikeId sel).1)[j]? = h[j]?) ∧
    (∀ (hw : List WeatherFrame) (wId j : Nat), j < hw.length →
      ((weatherView hw wId).1)[j]? = hw[j]?) := by
  refine ⟨?_, ?_, ?_⟩
  · intro h bikeId j sel hj
    cases hb : h[bikeId]? with
    | none => simp [popularStationsView, hb]
    | some f =>
      simp only [popularStationsView, hb, allocT, writeT]
      rw [List.getElem?_append_left
        (by simp only [List.length_set, List.length_append, List.length_singleton]; omega)]
      rw [List.getElem?_set_ne (by omega), List.getElem?_set_ne (by omega),
        List.getElem?_set_ne (by omega)]
      exact List.getElem?_append_left hj
  · intro h bikeId j sel hj
    cases hb : h[bikeId]? with
    | none => simp [peakHoursView, hb]
    | some f =>
      simp only [peakHoursView, hb, allocT, writeT]
      exact set_fresh_preserve h _ _ j hj
  · intro hw wId j hj
    cases hb : hw[wId]? with
    | none => simp [weatherView, hb]
    | some f =>
      simp only [weatherView, hb, allocW, writeW]
      exact set_fresh_preserve hw _ _ j hj

/-- C9 witness: each view run on the concrete one-slot heaps leaves
slot 0 — the cached table — exactly as it was. -/
theorem views_preserve_cached_tables_w :
    ((popularStationsView fixHeap 0 allSeasons).1)[0]? = fixHeap[0]? ∧
      ((peakHoursView fixHeap 0 ["member", "casual"]).1)[0]? = fixHeap[0]? ∧
      ((weatherView fixWHeap 0).1)[0]? = fixWHeap[0]? :=
  ⟨views_preserve_cached_tables.1 fixHeap 0 0 allSeasons (by decide),
    views_preserve_cached_tables.2.1 fixHeap 0 0 ["member", "casual"] (by decide),
    views_preserve_cached_tables.2.2 fixWHeap 0 0 (by decide)⟩

/-- C10: every input that is not one of the nine explicitly tested
month values — whether an out-of-range int, a string, or NaN — falls
through to the final else branch and is mapped to Autumn; the function
is total and never raises. -/
theorem get_season_else_autumn :
    ∀ m : PyVal,
      m ∉ [PyVal.int 12, PyVal.int 1, PyVal.int 2, PyVal.int 3, PyVal.int 4,
        PyVal.int 5, PyVal.int 6, PyVal.int 7, PyVal.int 8] →
      get_season m = "Autumn" := by
  intro m hm
  simp only [List.mem_cons, List.not_mem_nil, or_false, not_or] at hm
  obtain ⟨h12, h1, h2, h3, h4, h5, h6, h7, h8⟩ := hm
  unfold get_season
  rw [if_neg (by tauto), if_neg (by tauto), if_neg (by tauto)]

/-- C10 witness: a non-numeric string, NaN, and the out-of-range month
0 all map to Autumn. -/
theorem get_season_else_autumn_w :
    get_season (PyVal.str "July") = "Autumn" ∧
      get_season PyVal.nan = "Autumn" ∧
      get_season (PyVal.int 0) = "Autumn" :=
  ⟨get_season_else_autumn _ (by decide), get_season_else_autumn _ (by decide),
    get_season_else_autumn _ (by decide)⟩

end Citibike
